import Mathlib

/-!
Verification of the field layout editor and form synthesizer of the
svs-template-frontend repository.

The editor side (src/src/components/home.tsx, `PdfEditor`) keeps an ordered
list of control items, places new items on canvas clicks, drags them with the
move tool, deletes them, and serializes them into a config payload and a
fabric payload.  The signing side (src/unnamed/part_002, `DocumentSigning`)
filters a document's fields by a signer assignment and builds a zod
validation schema per field type; the signature fields embed the canvas
widget of src/src/components/SignaturePad.tsx.

Coordinates and sizes are modelled with rationals (the source uses JS
numbers); timestamps (`Date.now()`) and the current date are explicit
parameters.
-/

namespace SvsTemplate

/-- The four placeable field types of the editor
(`ControlItem.type` in home.tsx). -/
inductive FieldType where
  | signature
  | text
  | date
  | signblock
deriving DecidableEq, Repr

/-- The editor's tool palette: the four placement tools plus `move`
(`selectedTool` in home.tsx; `null` is modelled by `Option Tool`). -/
inductive Tool where
  | signature
  | text
  | date
  | signblock
  | move
deriving DecidableEq, Repr

/-- The string the source interpolates for a tool
(template literals over `selectedTool`). -/
def Tool.name : Tool → String
  | .signature => "signature"
  | .text => "text"
  | .date => "date"
  | .signblock => "signblock"
  | .move => "move"

/-- The field type a placement tool places; `none` for `move`
(the source's early return on `selectedTool === "move"`). -/
def Tool.fieldType : Tool → Option FieldType
  | .signature => some .signature
  | .text => some .text
  | .date => some .date
  | .signblock => some .signblock
  | .move => none

/-- `s.charAt(0).toUpperCase() + s.slice(1)` of the source's label template. -/
def capitalizeFirst (s : String) : String :=
  match s.data with
  | [] => ""
  | c :: cs => String.mk (c.toUpper :: cs)

/-- The capture-options record attached to `signblock` items
(home.tsx `ControlItem.captureOptions`). -/
structure CaptureOptions where
  video : Bool
  audio : Bool
  image : Bool
  signature : Bool
deriving DecidableEq, Repr

/-- One placed field of the editor (home.tsx `interface ControlItem`).
`captureOptions` is an optional attribute, present only on signblocks. -/
structure ControlItem where
  id : String
  type : FieldType
  x : ℚ
  y : ℚ
  width : ℚ
  height : ℚ
  page : Nat
  label : String
  required : Bool
  captureOptions : Option CaptureOptions
deriving DecidableEq, Repr

/-- The `PdfEditor` component state relevant to the field registry:
`currentPage`, `scale`, `selectedTool`, `controlItems`, `selectedItem`,
`isDragging`, `dragStart` (home.tsx `useState` hooks). -/
structure EditorState where
  currentPage : Nat
  scale : ℚ
  selectedTool : Option Tool
  controlItems : List ControlItem
  selectedItem : Option String
  isDragging : Bool
  dragStart : ℚ × ℚ
deriving DecidableEq, Repr

/-- home.tsx `handleCanvasClick`: with no tool or the move tool selected the
click does nothing; otherwise a new item is created at
`((clientX - rect.left) / scale, (clientY - rect.top) / scale)` with the
type-dependent default size and label, id `` `${selectedTool}-${Date.now()}` ``
(the timestamp is the explicit parameter `now`), `required := false`, the
current page, and — for signblock only — all four capture options enabled;
the item is appended and becomes selected. -/
def handleCanvasClick (s : EditorState) (clientX clientY rectLeft rectTop : ℚ)
    (now : Nat) : EditorState :=
  match s.selectedTool with
  | none => s
  | some tool =>
    match tool.fieldType with
    | none => s
    | some ft =>
      let x := (clientX - rectLeft) / s.scale
      let y := (clientY - rectTop) / s.scale
      let newItem : ControlItem :=
        { id := tool.name ++ "-" ++ toString now
          type := ft
          x := x
          y := y
          width := if ft = .signature ∨ ft = .signblock then 200 else 150
          height := if ft = .signature then 80 else
            if ft = .signblock then 120 else 40
          page := s.currentPage
          label := capitalizeFirst tool.name ++ " Field"
          required := false
          captureOptions :=
            if ft = .signblock then some ⟨true, true, true, true⟩ else none }
      { s with
          controlItems := s.controlItems ++ [newItem]
          selectedItem := some newItem.id }

/-- Rounding a rational to two decimal places (the spec prints document-space
positions rounded this way, e.g. 260/3 as 86.67). -/
def roundTo2 (q : ℚ) : ℚ := (round (q * 100) : ℤ) / 100

/-- home.tsx `handleItemMouseDown`: a pointer-down on a field's hit area
selects that field and, only when the move tool is active, starts a drag
recording the device-space start position.  The handler's
`e.stopPropagation()` stops only this mousedown event; the browser's
separate click event is unaffected by it and still bubbles from the field's
div (which has no click handler of its own) to the canvas div's `onClick`,
i.e. to `handleCanvasClick`. -/
def handleItemMouseDown (s : EditorState) (clientX clientY : ℚ)
    (id : String) : EditorState :=
  let s1 := { s with selectedItem := some id }
  if s.selectedTool = some Tool.move then
    { s1 with isDragging := true, dragStart := (clientX, clientY) }
  else s1

/-- home.tsx `handleMouseMove`: while a drag is active and a field is
selected (JS truthiness: a `null` or empty-string `selectedItem` aborts),
the delta from the last recorded pointer position, divided by the scale, is
added to the selected item's position, and the recorded position is updated
to the current pointer position. -/
def handleMouseMove (s : EditorState) (clientX clientY : ℚ) : EditorState :=
  if s.isDragging = false then s
  else
    match s.selectedItem with
    | none => s
    | some sel =>
      if sel = "" then s
      else
        let dx := (clientX - s.dragStart.1) / s.scale
        let dy := (clientY - s.dragStart.2) / s.scale
        { s with
            controlItems := s.controlItems.map (fun item =>
              if item.id = sel then
                { item with x := item.x + dx, y := item.y + dy }
              else item)
            dragStart := (clientX, clientY) }

/-- home.tsx `handleMouseUp`: releasing the pointer ends the drag. -/
def handleMouseUp (s : EditorState) : EditorState :=
  { s with isDragging := false }

/-- home.tsx `deleteSelectedItem`: when a field is selected (JS truthiness:
`null` and the empty string are falsy), every item with the selected id is
filtered out and the selection is cleared. -/
def deleteSelectedItem (s : EditorState) : EditorState :=
  match s.selectedItem with
  | none => s
  | some sel =>
    if sel = "" then s
    else
      { s with
          controlItems := s.controlItems.filter (fun i => i.id ≠ sel)
          selectedItem := none }

/-- home.tsx sidebar remove button (`onClick` of the × button): filters the
clicked item's id out of `controlItems` and clears the selection exactly
when the removed id was the selected one. -/
def removeItem (s : EditorState) (id : String) : EditorState :=
  { s with
      controlItems := s.controlItems.filter (fun i => i.id ≠ id)
      selectedItem :=
        if s.selectedItem = some id then none else s.selectedItem }

/-- One entry of the config payload's `fields` array
(home.tsx `generateConfig`). -/
structure ConfigField where
  id : String
  type : FieldType
  page : Nat
  position : ℚ × ℚ
  size : ℚ × ℚ
  label : String
  required : Bool
  captureOptions : Option CaptureOptions
deriving DecidableEq, Repr

/-- The config payload (home.tsx `generateConfig`): version "1.0" plus one
entry per control item, in order. -/
structure ConfigPayload where
  version : String
  fields : List ConfigField
deriving DecidableEq, Repr

/-- The `fields` array of home.tsx `generateConfig`: a projection of each
item; the `captureOptions` key is attached only for signblock items
(the `...(item.type === "signblock" && {captureOptions})` spread). -/
def generateConfigFields (items : List ControlItem) : List ConfigField :=
  items.map (fun item =>
    { id := item.id
      type := item.type
      page := item.page
      position := (item.x, item.y)
      size := (item.width, item.height)
      label := item.label
      required := item.required
      captureOptions :=
        if item.type = .signblock then item.captureOptions else none })

/-- home.tsx `generateConfig` (the JSON text is the rendering of this
payload). -/
def generateConfig (items : List ControlItem) : ConfigPayload :=
  { version := "1.0", fields := generateConfigFields items }

/-- The visual object kind of the fabric payload. -/
inductive FabricObjType where
  | rect
  | textbox
  | group
deriving DecidableEq, Repr

/-- The `metadata` block of one fabric object (home.tsx `generateFabric`). -/
structure FabricMetadata where
  fieldType : FieldType
  fieldId : String
  required : Bool
  captureOptions : Option CaptureOptions
deriving DecidableEq, Repr

/-- One entry of the fabric payload's `objects` array
(home.tsx `generateFabric`). -/
structure FabricObject where
  type : FabricObjType
  left : ℚ
  top : ℚ
  width : ℚ
  height : ℚ
  fill : String
  stroke : String
  strokeWidth : Nat
  metadata : FabricMetadata
deriving DecidableEq, Repr

/-- The `objects` array of home.tsx `generateFabric`: the nested conditional
maps signature to rect, text to textbox, signblock to group and anything
else (date) to rect; style attributes depend only on whether the item is a
signblock; metadata carries fieldType, fieldId, required and — for signblock
only — the capture options. -/
def generateFabricObjects (items : List ControlItem) : List FabricObject :=
  items.map (fun item =>
    { type :=
        if item.type = .signature then .rect
        else if item.type = .text then .textbox
        else if item.type = .signblock then .group
        else .rect
      left := item.x
      top := item.y
      width := item.width
      height := item.height
      fill := if item.type = .signblock then "rgba(0,0,255,0.05)"
        else "rgba(0,0,0,0.1)"
      stroke := if item.type = .signblock then "#6200EA" else "#0000FF"
      strokeWidth := if item.type = .signblock then 2 else 1
      metadata :=
        { fieldType := item.type
          fieldId := item.id
          required := item.required
          captureOptions :=
            if item.type = .signblock then item.captureOptions else none } })

/-- The fabric payload (home.tsx `generateFabric`). -/
structure FabricPayload where
  version : String
  objects : List FabricObject
deriving DecidableEq, Repr

/-- home.tsx `generateFabric`: version "5.3.0" plus the objects array. -/
def generateFabric (items : List ControlItem) : FabricPayload :=
  { version := "5.3.0", objects := generateFabricObjects items }

/-- The spec's fixed type-to-visual-object mapping (§4.4): signature→rect,
text→textbox, date→rect, signblock→group.  Stated from the spec's words, to
be compared with what `generateFabricObjects` computes. -/
def specVisualMap : FieldType → FabricObjType
  | .signature => .rect
  | .text => .textbox
  | .date => .rect
  | .signblock => .group

/-- An editor state as at the start of the spec's end-to-end scenario:
page 1, scale 1.5, signblock tool active, no items yet. -/
def demoEditorState : EditorState :=
  { currentPage := 1
    scale := 3 / 2
    selectedTool := some .signblock
    controlItems := []
    selectedItem := none
    isDragging := false
    dragStart := (0, 0) }

/-- C1: with a placement tool `t ≠ move` active, a canvas click at device
coordinates `(cx, cy)` over a canvas with bounding origin `(ox, oy)` under
scale `s.scale` appends exactly one new field at document-space position
`((cx - ox) / scale, (cy - oy) / scale)` with the type-indexed default size
(signature 200×80, signblock 200×120, text/date 150×40), `required = false`,
the current page, capture options all true exactly for signblock, and the new
field becomes selected; in particular for device coordinates (150,150),
origin (20,20) and scale 1.5 the created position is 260/3 = 86.67 (two
decimal places) in both axes. -/
theorem canvasClick_creates_field
    (s : EditorState) (cx cy ox oy : ℚ) (now : Nat) (t : Tool) (ft : FieldType)
    (htool : s.selectedTool = some t) (hft : t.fieldType = some ft) :
    (∃ item : ControlItem,
      (handleCanvasClick s cx cy ox oy now).controlItems =
        s.controlItems ++ [item] ∧
      (handleCanvasClick s cx cy ox oy now).selectedItem = some item.id ∧
      item.x = (cx - ox) / s.scale ∧
      item.y = (cy - oy) / s.scale ∧
      item.type = ft ∧
      item.page = s.currentPage ∧
      item.required = false ∧
      (ft = .signature → item.width = 200 ∧ item.height = 80) ∧
      (ft = .signblock → item.width = 200 ∧ item.height = 120 ∧
        item.captureOptions = some ⟨true, true, true, true⟩) ∧
      ((ft = .text ∨ ft = .date) → item.width = 150 ∧ item.height = 40) ∧
      (ft ≠ .signblock → item.captureOptions = none)) ∧
    ((handleCanvasClick demoEditorState 150 150 20 20 7).controlItems.map
        (fun i => (i.x, i.y, i.width, i.height, i.required, i.page,
          i.captureOptions))
      = [((260 : ℚ) / 3, (260 : ℚ) / 3, 200, 120, false, 1,
          some ⟨true, true, true, true⟩)]) ∧
    roundTo2 ((260 : ℚ) / 3) = 8667 / 100 := by
  refine ⟨?_, ?_, ?_⟩
  · simp only [handleCanvasClick, htool, hft]
    refine ⟨_, rfl, rfl, rfl, rfl, rfl, rfl, rfl, ?_, ?_, ?_, ?_⟩
    · intro h; subst h; simp
    · intro h; subst h; simp
    · rintro (h | h) <;> subst h <;> simp
    · intro h
      simpa using fun h2 => absurd h2 h
  · simp [handleCanvasClick, demoEditorState, Tool.fieldType]
    norm_num
  · have h : round ((260 : ℚ) / 3 * 100) = 8667 := by
      rw [round_eq, Int.floor_eq_iff]
      constructor <;> norm_num
    rw [roundTo2, h]
    norm_num

/-- Witness for C1 at the spec's end-to-end scenario: signblock tool, device
coordinates (150,150), origin (20,20), scale 1.5. -/
theorem canvasClick_creates_field_witness :
    ∃ item : ControlItem,
      (handleCanvasClick demoEditorState 150 150 20 20 7).controlItems =
        demoEditorState.controlItems ++ [item] := by
  obtain ⟨⟨item, h1, _⟩, _, _⟩ :=
    canvasClick_creates_field demoEditorState 150 150 20 20 7 .signblock
      .signblock rfl rfl
  exact ⟨item, h1⟩

/-- C3 (code bug): the editor generates ids as
`` `${selectedTool}-${Date.now()}` `` with no collision check, so two
placements of the same type within the same millisecond (equal `Date.now()`
values, here 1000) produce two fields with the identical id
"signblock-1000": id uniqueness is violated. -/
theorem sameMillisecondClicks_duplicateId :
    ((handleCanvasClick (handleCanvasClick demoEditorState 100 100 20 20 1000)
        110 110 20 20 1000).controlItems.map ControlItem.id)
      = ["signblock-1000", "signblock-1000"] ∧
    ¬ ((handleCanvasClick (handleCanvasClick demoEditorState 100 100 20 20
        1000) 110 110 20 20 1000).controlItems.map ControlItem.id).Nodup := by
  constructor
  · rfl
  · simp [handleCanvasClick, demoEditorState, Tool.fieldType, Tool.name]

/-- Moving the item `id` by `(dx, dy)` and then by `(-dx, -dy)` leaves the
item list unchanged (used for C4). -/
lemma map_move_cancel (items : List ControlItem) (id : String) (dx dy : ℚ) :
    (items.map (fun item =>
        if item.id = id then
          { item with x := item.x + dx, y := item.y + dy }
        else item)).map (fun item =>
        if item.id = id then
          { item with x := item.x + -dx, y := item.y + -dy }
        else item) = items := by
  induction items with
  | nil => rfl
  | cons a t ih =>
    simp only [List.map_cons, ih]
    congr 1
    by_cases h : a.id = id
    · cases a
      simp only at h
      subst h
      simp [add_neg_cancel_right]
    · simp [h]

/-- C4: while dragging the selected field `id` under a positive scale, a
pointer move of device delta `(dx·scale, dy·scale)` — i.e. a document-space
move by `(dx, dy)` — changes only the `x` and `y` of that field (all its
other attributes and all other fields are untouched), and the opposite move
back to the original pointer position restores the entire editor state
exactly. -/
theorem move_then_inverse_restores
    (s : EditorState) (id : String) (dx dy : ℚ)
    (hdrag : s.isDragging = true)
    (hsel : s.selectedItem = some id)
    (hid : id ≠ "")
    (hmem : id ∈ s.controlItems.map ControlItem.id)
    (hscale : 0 < s.scale) :
    (handleMouseMove s (s.dragStart.1 + dx * s.scale)
        (s.dragStart.2 + dy * s.scale)).controlItems
      = s.controlItems.map (fun item =>
          if item.id = id then
            { item with x := item.x + dx, y := item.y + dy }
          else item) ∧
    handleMouseMove
      (handleMouseMove s (s.dragStart.1 + dx * s.scale)
        (s.dragStart.2 + dy * s.scale))
      s.dragStart.1 s.dragStart.2 = s := by
  have hs0 : s.scale ≠ 0 := ne_of_gt hscale
  have hguard : ¬(true = false) := by decide
  obtain ⟨pg, sc, tool, items, selItem, drag, ⟨dsx, dsy⟩⟩ := s
  simp only at hdrag hsel hs0 ⊢
  subst hdrag hsel
  have hdx : ∀ a b : ℚ, (a + b * sc - a) / sc = b := by
    intro a b; field_simp
  have h1 : handleMouseMove ⟨pg, sc, tool, items, some id, true, (dsx, dsy)⟩
      (dsx + dx * sc) (dsy + dy * sc)
      = ⟨pg, sc, tool,
          items.map (fun item =>
            if item.id = id then
              { item with x := item.x + dx, y := item.y + dy }
            else item),
          some id, true, (dsx + dx * sc, dsy + dy * sc)⟩ := by
    simp only [handleMouseMove, if_neg hid, hdx]
    rw [if_neg hguard]
  refine ⟨by rw [h1], ?_⟩
  rw [h1]
  have hback : ∀ a b : ℚ, (a - (a + b * sc)) / sc = -b := by
    intro a b; field_simp
  simp only [handleMouseMove, if_neg hid, hback]
  rw [if_neg hguard, map_move_cancel]

/-- A placed signature field used in the drag and removal scenarios. -/
def demoDragItem : ControlItem :=
  { id := "signature-5"
    type := .signature
    x := 10
    y := 20
    width := 200
    height := 80
    page := 1
    label := "Signature Field"
    required := false
    captureOptions := none }

/-- An editor state mid-drag: the move tool is active, the only item is
selected and a drag is in progress from device position (100, 100) at
scale 2. -/
def demoDragState : EditorState :=
  { currentPage := 1
    scale := 2
    selectedTool := some .move
    controlItems := [demoDragItem]
    selectedItem := some "signature-5"
    isDragging := true
    dragStart := (100, 100) }

/-- Witness for C4: dragging the only item by (7, 9) in document space and
back restores the state. -/
theorem move_then_inverse_restores_witness :
    handleMouseMove
      (handleMouseMove demoDragState
        (demoDragState.dragStart.1 + 7 * demoDragState.scale)
        (demoDragState.dragStart.2 + 9 * demoDragState.scale))
      demoDragState.dragStart.1 demoDragState.dragStart.2 = demoDragState := by
  exact (move_then_inverse_restores demoDragState "signature-5" 7 9 rfl rfl
    (by decide) (by decide) (by norm_num [demoDragState])).2

/-- The DOM event sequence a full press-and-release on an existing field's
hit area triggers in home.tsx: the field div's `onMouseDown` runs
`handleItemMouseDown` (its `e.stopPropagation()` stops only the mousedown),
the container's `onMouseUp` runs `handleMouseUp`, and then the browser's
click event — a separate event whose propagation the earlier
`stopPropagation` does not affect — bubbles from the field div (which has
no click handler) to the canvas div's `onClick`, i.e. `handleCanvasClick`. -/
def fieldClick (s : EditorState) (clientX clientY rectLeft rectTop : ℚ)
    (id : String) (now : Nat) : EditorState :=
  handleCanvasClick (handleMouseUp (handleItemMouseDown s clientX clientY id))
    clientX clientY rectLeft rectTop now

/-- An editor state with the signblock tool active over a registry holding
one placed field, about to be clicked. -/
def demoFieldClickState : EditorState :=
  { currentPage := 1
    scale := 1
    selectedTool := some .signblock
    controlItems := [demoDragItem]
    selectedItem := none
    isDragging := false
    dragStart := (0, 0) }

/-- C8 (code bug): clicking the existing field "signature-5" while the
signblock tool is active does select it on mousedown, but the click event
still reaches `handleCanvasClick` (home.tsx stops only the mousedown, and
creation hangs on the canvas div's `onClick`), so a new field is created:
the count grows by one and the new field steals the selection — the claim's
"selects but does not create" does not hold on the code. -/
theorem fieldClick_creates_extra_field :
    (fieldClick demoFieldClickState 60 60 0 0 "signature-5"
        2000).controlItems.length
      = demoFieldClickState.controlItems.length + 1 ∧
    (fieldClick demoFieldClickState 60 60 0 0 "signature-5"
        2000).controlItems.map ControlItem.id
      = ["signature-5", "signblock-2000"] ∧
    (fieldClick demoFieldClickState 60 60 0 0 "signature-5"
        2000).selectedItem = some "signblock-2000" := by
  refine ⟨rfl, rfl, rfl⟩

/-- Filtering out an id that no item carries keeps the list unchanged. -/
lemma filter_ne_of_not_mem (l : List ControlItem) (id : String)
    (h : id ∉ l.map ControlItem.id) : l.filter (fun i => i.id ≠ id) = l := by
  rw [List.filter_eq_self]
  intro a ha
  have hne : a.id ≠ id := fun heq =>
    h (heq ▸ List.mem_map_of_mem ControlItem.id ha)
  simp [hne]

/-- With pairwise-distinct ids, filtering out a present id removes exactly
one item. -/
lemma filter_ne_length_of_nodup (l : List ControlItem) (id : String)
    (hnd : (l.map ControlItem.id).Nodup) (h : id ∈ l.map ControlItem.id) :
    (l.filter (fun i => i.id ≠ id)).length + 1 = l.length := by
  induction l with
  | nil => simp at h
  | cons a t ih =>
    simp only [List.map_cons, List.nodup_cons] at hnd
    obtain ⟨ha, hnd2⟩ := hnd
    simp only [List.map_cons, List.mem_cons] at h
    by_cases heq : a.id = id
    · rw [List.filter_cons_of_neg (by simp [heq]),
        filter_ne_of_not_mem t id (heq ▸ ha)]
      simp
    · obtain h | h := h
      · exact absurd h.symm heq
      · rw [List.filter_cons_of_pos (by simp [heq])]
        simp only [List.length_cons]
        rw [ih hnd2 h]

/-- No item of the filtered list carries the removed id. -/
lemma not_mem_filter_ne (l : List ControlItem) (id : String) :
    id ∉ (l.filter (fun i => i.id ≠ id)).map ControlItem.id := by
  intro h
  obtain ⟨a, ha, haid⟩ := List.mem_map.mp h
  have hp := List.of_mem_filter ha
  simp at hp
  exact hp haid

/-- The config payload lists exactly the items' ids, in order. -/
lemma generateConfigFields_ids (l : List ControlItem) :
    (generateConfigFields l).map ConfigField.id = l.map ControlItem.id := by
  simp [generateConfigFields, List.map_map, Function.comp]

/-- The fabric payload's metadata lists exactly the items' ids, in order. -/
lemma generateFabricObjects_ids (l : List ControlItem) :
    (generateFabricObjects l).map (fun o => o.metadata.fieldId)
      = l.map ControlItem.id := by
  simp [generateFabricObjects, List.map_map, Function.comp]

/-- C7: with pairwise-distinct ids, removing a present id deletes exactly
that field (count drops by one in the item list and in both serialized
payloads, and the id is gone from both payloads); every other field
survives, in order; if the removed field was selected, the selection
empties; removing an id that is not present (with the selection not stale)
is a no-op; and `deleteSelectedItem` is exactly `removeItem` at the selected
id. -/
theorem remove_deletes_exactly
    (s : EditorState) (id : String)
    (hnd : (s.controlItems.map ControlItem.id).Nodup) :
    (id ∈ s.controlItems.map ControlItem.id →
      (removeItem s id).controlItems.length + 1 = s.controlItems.length ∧
      id ∉ (removeItem s id).controlItems.map ControlItem.id ∧
      (generateConfig (removeItem s id).controlItems).fields.length + 1
        = (generateConfig s.controlItems).fields.length ∧
      id ∉ (generateConfig (removeItem s id).controlItems).fields.map
        ConfigField.id ∧
      (generateFabric (removeItem s id).controlItems).objects.length + 1
        = (generateFabric s.controlItems).objects.length ∧
      id ∉ (generateFabric (removeItem s id).controlItems).objects.map
        (fun o => o.metadata.fieldId)) ∧
    (∀ i ∈ s.controlItems, i.id ≠ id → i ∈ (removeItem s id).controlItems) ∧
    ((removeItem s id).controlItems).Sublist s.controlItems ∧
    (s.selectedItem = some id → (removeItem s id).selectedItem = none) ∧
    (id ∉ s.controlItems.map ControlItem.id → s.selectedItem ≠ some id →
      removeItem s id = s) ∧
    (∀ sel, s.selectedItem = some sel → sel ≠ "" →
      deleteSelectedItem s = removeItem s sel) := by
  refine ⟨?_, ?_, ?_, ?_, ?_, ?_⟩
  · intro hmem
    refine ⟨filter_ne_length_of_nodup _ _ hnd hmem, not_mem_filter_ne _ _,
      ?_, ?_, ?_, ?_⟩
    · simp only [generateConfig, generateConfigFields, List.length_map]
      exact filter_ne_length_of_nodup _ _ hnd hmem
    · rw [generateConfig, generateConfigFields_ids]
      exact not_mem_filter_ne _ _
    · simp only [generateFabric, generateFabricObjects, List.length_map]
      exact filter_ne_length_of_nodup _ _ hnd hmem
    · rw [generateFabric, generateFabricObjects_ids]
      exact not_mem_filter_ne _ _
  · intro i hi hne
    exact List.mem_filter.mpr ⟨hi, by simp [hne]⟩
  · exact List.filter_sublist _
  · intro hsel
    simp [removeItem, if_pos hsel]
  · intro hmem hsel
    simp only [removeItem, if_neg hsel, filter_ne_of_not_mem _ _ hmem]
  · intro sel hsel hne
    simp only [deleteSelectedItem, hsel, if_neg hne, removeItem,
      if_pos hsel]
    simp

/-- Witness for C7 at a one-item registry holding the id being removed. -/
theorem remove_deletes_exactly_witness :
    ((removeItem demoDragState "signature-5").controlItems).Sublist
      demoDragState.controlItems := by
  exact (remove_deletes_exactly demoDragState "signature-5" (by decide)).2.2.1

/-- Pointwise images of one list are related position by position. -/
lemma forall₂_map_map {α β γ : Type} (f : α → β) (g : α → γ)
    (R : β → γ → Prop) (l : List α) (h : ∀ a ∈ l, R (f a) (g a)) :
    List.Forall₂ R (l.map f) (l.map g) := by
  induction l with
  | nil => exact List.Forall₂.nil
  | cons a t ih =>
    exact List.Forall₂.cons (h a (List.mem_cons_self a t))
      (ih (fun b hb => h b (List.mem_cons_of_mem a hb)))

/-- A list is related position by position to its pointwise image. -/
lemma forall₂_self_map {α β : Type} (f : α → β) (R : α → β → Prop)
    (l : List α) (h : ∀ a ∈ l, R a (f a)) :
    List.Forall₂ R l (l.map f) := by
  induction l with
  | nil => exact List.Forall₂.nil
  | cons a t ih =>
    exact List.Forall₂.cons (h a (List.mem_cons_self a t))
      (ih (fun b hb => h b (List.mem_cons_of_mem a hb)))

/-- C2: on a field list whose items carry capture options exactly when they
are signblocks (every registry-created list does), `generateConfig` and
`generateFabric` are order-preserving — entry i of each payload describes
item i — and at every position the fabric metadata's fieldId, fieldType,
required and captureOptions equal the config entry's id, type, required and
captureOptions, the visual object type follows the fixed mapping
signature→rect, text→textbox, date→rect, signblock→group, and capture
options are present in either payload exactly for signblock entries. -/
theorem config_fabric_cross_consistency
    (items : List ControlItem)
    (hWF : ∀ item ∈ items,
      (item.captureOptions.isSome ↔ item.type = FieldType.signblock)) :
    (generateConfig items).fields.length = items.length ∧
    (generateFabric items).objects.length = items.length ∧
    List.Forall₂ (fun (item : ControlItem) (cf : ConfigField) =>
        cf.id = item.id ∧ cf.type = item.type ∧
        cf.required = item.required ∧ cf.position = (item.x, item.y) ∧
        cf.size = (item.width, item.height) ∧ cf.page = item.page ∧
        cf.label = item.label)
      items (generateConfig items).fields ∧
    List.Forall₂ (fun (item : ControlItem) (fo : FabricObject) =>
        fo.metadata.fieldId = item.id ∧ fo.metadata.fieldType = item.type ∧
        fo.metadata.required = item.required ∧
        fo.type = specVisualMap item.type ∧
        fo.left = item.x ∧ fo.top = item.y ∧
        fo.width = item.width ∧ fo.height = item.height)
      items (generateFabric items).objects ∧
    List.Forall₂ (fun (cf : ConfigField) (fo : FabricObject) =>
        fo.metadata.fieldId = cf.id ∧ fo.metadata.fieldType = cf.type ∧
        fo.metadata.required = cf.required ∧
        fo.metadata.captureOptions = cf.captureOptions ∧
        fo.type = specVisualMap cf.type ∧
        (cf.captureOptions.isSome ↔ cf.type = FieldType.signblock) ∧
        (fo.metadata.captureOptions.isSome ↔
          fo.metadata.fieldType = FieldType.signblock))
      (generateConfig items).fields (generateFabric items).objects := by
  refine ⟨by simp [generateConfig, generateConfigFields],
    by simp [generateFabric, generateFabricObjects], ?_, ?_, ?_⟩
  · apply forall₂_self_map
    intro item _
    refine ⟨rfl, rfl, rfl, rfl, rfl, rfl, rfl⟩
  · apply forall₂_self_map
    intro item _
    refine ⟨rfl, rfl, rfl, ?_, rfl, rfl, rfl, rfl⟩
    cases h : item.type <;> simp [h, specVisualMap]
  · apply forall₂_map_map
    intro item hitem
    have hopt := hWF item hitem
    refine ⟨rfl, rfl, rfl, rfl, ?_, ?_, ?_⟩
    · cases h : item.type <;> simp [h, specVisualMap]
    · by_cases h : item.type = FieldType.signblock
      · simpa [h] using hopt
      · simp [h]
    · by_cases h : item.type = FieldType.signblock
      · simpa [h] using hopt
      · simp [h]

/-- A well-formed two-item registry: one text field without capture options
and one signblock with its capture-options record. -/
def demoItems : List ControlItem :=
  [{ id := "text-1", type := .text, x := 10, y := 20, width := 150,
     height := 40, page := 1, label := "Text Field", required := false,
     captureOptions := none },
   { id := "signblock-2", type := .signblock, x := 30, y := 40, width := 200,
     height := 120, page := 1, label := "Signblock Field", required := true,
     captureOptions := some ⟨true, false, true, true⟩ }]

/-- Witness for C2 at the two-item registry `demoItems`. -/
theorem config_fabric_cross_consistency_witness :
    (generateConfig demoItems).fields.length = demoItems.length ∧
    (generateFabric demoItems).objects.length = demoItems.length := by
  obtain ⟨h1, h2, -, -, -⟩ :=
    config_fabric_cross_consistency demoItems (by decide)
  exact ⟨h1, h2⟩

/-! ## Signing side: document fields, assignment filter, validation schema

TemplateForm.tsx declares `SigningField` with
`type: "text" | "date" | "checkbox" | "signature"`; the type is kept as a
string here because the runtime dispatch in part_002 (`createFormSchema`,
the per-type render conditionals) switches on the string and has no default
case, so values outside the declared union (such as the editor-producible
"signblock") flow through it silently — which claim C10 is about. -/

/-- TemplateForm.tsx `interface SigningField` (the optional `value` field is
populated only by the form machinery and is not part of the schema
dispatch, so it is omitted). -/
structure SigningField where
  id : String
  type : String
  page : Nat
  posX : ℚ
  posY : ℚ
  sizeW : ℚ
  sizeH : ℚ
  label : String
  required : Bool
deriving DecidableEq, Repr

/-- part_002 `fetchData`: the fields the synthesized form shows are the
document's fields filtered by membership of their id in the assignment's
field-id list (`fields.filter((field) => assignment.fields.includes(field.id))`). -/
def assignedFields (docFields : List SigningField)
    (assignment : List String) : List SigningField :=
  docFields.filter (fun f => assignment.contains f.id)

/-- One value of the dynamic form (part_002 `FormValues`: string, boolean or
Date per key; `absent` models a key with no value, i.e. `undefined`).  A
date is an opaque timestamp. -/
inductive FormValue where
  | str (s : String)
  | bool (b : Bool)
  | date (t : Int)
  | absent
deriving DecidableEq, Repr

/-- The zod chain attached to one field id by part_002 `createFormSchema`,
as data: `z.string().min(1, msg)`, `z.string().optional()`,
`z.date(required_error msg)`, `z.date().optional()`,
`z.boolean().refine(val => val === true, msg)`, `z.boolean().optional()`. -/
inductive FieldSchema where
  | stringMin1 (msg : String)
  | stringOpt
  | dateReq (msg : String)
  | dateOpt
  | boolTrue (msg : String)
  | boolOpt
deriving DecidableEq, Repr

/-- zod parse semantics of the chains above over a form value: `none` means
the value passes, `some msg` is the reported per-field message.  A missing
value fails every non-optional chain (with the configured message for the
date chain's `required_error` and the refine message for `min(1)` and the
`true` refinement only applying to values of the right type). -/
def FieldSchema.check : FieldSchema → FormValue → Option String
  | .stringMin1 msg, .str s => if 1 ≤ s.length then none else some msg
  | .stringMin1 _, .absent => some "Required"
  | .stringMin1 _, _ => some "Expected string"
  | .stringOpt, .str _ => none
  | .stringOpt, .absent => none
  | .stringOpt, _ => some "Expected string"
  | .dateReq _, .date _ => none
  | .dateReq msg, .absent => some msg
  | .dateReq _, _ => some "Expected date"
  | .dateOpt, .date _ => none
  | .dateOpt, .absent => none
  | .dateOpt, _ => some "Expected date"
  | .boolTrue msg, .bool b => if b then none else some msg
  | .boolTrue _, .absent => some "Required"
  | .boolTrue _, _ => some "Expected boolean"
  | .boolOpt, .bool _ => none
  | .boolOpt, .absent => none
  | .boolOpt, _ => some "Expected boolean"

/-- The schema entry part_002 `createFormSchema` attaches for one field: the
switch over `field.type` with cases "text", "date", "checkbox", "signature"
and no default; each case picks the required or the optional chain by
`field.required`. -/
def schemaForField (f : SigningField) : Option FieldSchema :=
  if f.type = "text" then
    some (if f.required then .stringMin1 (f.label ++ " is required")
      else .stringOpt)
  else if f.type = "date" then
    some (if f.required then .dateReq (f.label ++ " is required")
      else .dateOpt)
  else if f.type = "checkbox" then
    some (if f.required then .boolTrue (f.label ++ " must be checked")
      else .boolOpt)
  else if f.type = "signature" then
    some (if f.required then .stringMin1 "Signature is required"
      else .stringOpt)
  else none

/-- part_002 `createFormSchema`: the object `schemaObj` built by the forEach
loop, as the ordered list of (field id, zod chain) entries; a field whose
type matches no case contributes nothing. -/
def createFormSchema (fields : List SigningField) :
    List (String × FieldSchema) :=
  fields.filterMap (fun f => (schemaForField f).map (fun sch => (f.id, sch)))

/-- The per-field validation failures the zod resolver reports for a
submission: one (field id, message) pair per schema entry whose value
fails. -/
def schemaFailures (entries : List (String × FieldSchema))
    (vals : String → FormValue) : List (String × String) :=
  entries.filterMap (fun e => (FieldSchema.check e.2 (vals e.1)).map
    (fun m => (e.1, m)))

/-- `react-hook-form` with the zod resolver blocks `onSubmit` exactly while
some schema entry fails. -/
def submissionBlocked (entries : List (String × FieldSchema))
    (vals : String → FormValue) : Bool :=
  !(schemaFailures entries vals).isEmpty

/-- The default value part_002's `useForm` gives one field (the reduce over
`signerFields`): `false` for checkbox, the current date (`new Date()`, the
explicit parameter `now`) for date, the empty string otherwise. -/
def defaultValueFor (f : SigningField) (now : Int) : FormValue :=
  if f.type = "checkbox" then .bool false
  else if f.type = "date" then .date now
  else .str ""

/-- part_002 `useForm defaultValues`: one default per assigned field, keyed
by field id. -/
def defaultValues (fields : List SigningField) (now : Int) :
    List (String × FormValue) :=
  fields.map (fun f => (f.id, defaultValueFor f now))

/-- The input control part_002 renders for a field type (the four
`field.type === ...` conditionals in the FormField body); a type matching
none of them renders nothing. -/
inductive RenderedControl where
  | input
  | datePicker
  | checkboxControl
  | signaturePad
deriving DecidableEq, Repr

/-- The render dispatch of part_002: text input, date picker popover,
checkbox, signature pad — and no control at all for any other type. -/
def renderControl (t : String) : Option RenderedControl :=
  if t = "text" then some .input
  else if t = "date" then some .datePicker
  else if t = "checkbox" then some .checkboxControl
  else if t = "signature" then some .signaturePad
  else none

/-- The first mock document field of part_002: text "Full Name", required. -/
def demoField1 : SigningField :=
  { id := "field-1", type := "text", page := 1, posX := 100, posY := 200,
    sizeW := 200, sizeH := 30, label := "Full Name", required := true }

/-- The second mock document field of part_002: date "Signing Date",
required. -/
def demoField2 : SigningField :=
  { id := "field-2", type := "date", page := 1, posX := 100, posY := 250,
    sizeW := 200, sizeH := 30, label := "Signing Date", required := true }

/-- The third mock document field of part_002: checkbox, required. -/
def demoField3 : SigningField :=
  { id := "field-3", type := "checkbox", page := 1, posX := 100, posY := 300,
    sizeW := 20, sizeH := 20, label := "I agree to the terms and conditions",
    required := true }

/-- A three-field document, as in the spec's {f1, f2, f3} scenario. -/
def demoDocFields : List SigningField := [demoField1, demoField2, demoField3]

/-- C5: the synthesized form's field list is exactly the document fields
whose ids are listed in the assignment, in document order (a sublist of the
document's order) and nothing else; for the document {f1, f2, f3} with
assignment {field-1, field-3} it has exactly the 2 fields f1 and f3 and
never contains f2. -/
theorem assignedFields_exactly :
    (∀ (docFields : List SigningField) (assignment : List String)
        (f : SigningField),
      f ∈ assignedFields docFields assignment ↔
        (f ∈ docFields ∧ f.id ∈ assignment)) ∧
    (∀ (docFields : List SigningField) (assignment : List String),
      (assignedFields docFields assignment).Sublist docFields) ∧
    (assignedFields demoDocFields ["field-1", "field-3"]).length = 2 ∧
    assignedFields demoDocFields ["field-1", "field-3"]
      = [demoField1, demoField3] ∧
    demoField2 ∉ assignedFields demoDocFields ["field-1", "field-3"] := by
  have hchar : ∀ (docFields : List SigningField) (assignment : List String)
      (f : SigningField),
      f ∈ assignedFields docFields assignment ↔
        (f ∈ docFields ∧ f.id ∈ assignment) := by
    intro d a f
    simp [assignedFields, List.mem_filter]
  refine ⟨hchar, ?_, ?_, ?_, ?_⟩
  · intro d a
    exact List.filter_sublist _
  · rfl
  · rfl
  · intro h
    have h2 := (hchar _ _ _).mp h
    exact absurd h2.2 (by decide)

/-- The required-string chain accepts exactly the non-empty strings. -/
lemma stringMin1_check_eq_none (msg : String) (v : FormValue) :
    FieldSchema.check (.stringMin1 msg) v = none ↔
      ∃ s, v = .str s ∧ s ≠ "" := by
  cases v with
  | str s =>
    by_cases hs : s = ""
    · subst hs
      simp only [FieldSchema.check]
      rw [if_neg (by decide)]
      constructor
      · intro h
        cases h
      · rintro ⟨s2, heq, hne⟩
        injection heq with h2
        exact absurd h2.symm hne
    · have hlen : 1 ≤ s.length := by
        have h0 : s.length ≠ 0 := by
          intro h0
          apply hs
          cases s with
          | mk data =>
            cases data with
            | nil => rfl
            | cons c cs => simp [String.length] at h0
        omega
      simp only [FieldSchema.check]
      rw [if_pos hlen]
      constructor
      · intro _
        exact ⟨s, rfl, hs⟩
      · intro _
        rfl
  | bool b => simp [FieldSchema.check]
  | date d => simp [FieldSchema.check]
  | absent => simp [FieldSchema.check]

/-- The required-date chain accepts exactly present date values. -/
lemma dateReq_check_eq_none (msg : String) (v : FormValue) :
    FieldSchema.check (.dateReq msg) v = none ↔ ∃ d, v = .date d := by
  cases v <;> simp [FieldSchema.check]

/-- The required-checkbox chain accepts exactly `true`. -/
lemma boolTrue_check_eq_none (msg : String) (v : FormValue) :
    FieldSchema.check (.boolTrue msg) v = none ↔ v = .bool true := by
  cases v with
  | bool b => cases b <;> simp [FieldSchema.check]
  | str s => simp [FieldSchema.check]
  | date d => simp [FieldSchema.check]
  | absent => simp [FieldSchema.check]

/-- A one-entry schema produces no failure exactly when its value passes. -/
lemma schemaFailures_singleton (id : String) (sch : FieldSchema)
    (vals : String → FormValue) :
    schemaFailures [(id, sch)] vals = [] ↔
      FieldSchema.check sch (vals id) = none := by
  cases h : FieldSchema.check sch (vals id) <;>
    simp [schemaFailures, h]

/-- Submission goes through exactly when every schema entry's value
passes. -/
lemma submissionBlocked_false_iff (entries : List (String × FieldSchema))
    (vals : String → FormValue) :
    submissionBlocked entries vals = false ↔
      ∀ e ∈ entries, FieldSchema.check e.2 (vals e.1) = none := by
  simp [submissionBlocked, schemaFailures, List.isEmpty_iff,
    List.filterMap_eq_nil_iff, Option.map_eq_none']

/-- Every reported failure is keyed by one of the schema's field ids. -/
lemma schemaFailures_keys (entries : List (String × FieldSchema))
    (vals : String → FormValue) (p : String × String)
    (hp : p ∈ schemaFailures entries vals) : p.1 ∈ entries.map Prod.fst := by
  obtain ⟨e, he, heq⟩ := List.mem_filterMap.mp hp
  obtain ⟨m, _, hpm⟩ := Option.map_eq_some'.mp heq
  rw [← hpm]
  exact List.mem_map_of_mem Prod.fst he

/-- The three required fields of the spec's end-to-end signing scenario:
text "Name", date "Date", signature "Sig", all required. -/
def demoSignFields : List SigningField :=
  [{ id := "f-name", type := "text", page := 1, posX := 0, posY := 0,
     sizeW := 200, sizeH := 30, label := "Name", required := true },
   { id := "f-date", type := "date", page := 1, posX := 0, posY := 50,
     sizeW := 200, sizeH := 30, label := "Date", required := true },
   { id := "f-sig", type := "signature", page := 1, posX := 0, posY := 100,
     sizeW := 300, sizeH := 100, label := "Sig", required := true }]

/-- The scenario's submission: the Name field left empty, the date present,
the signature filled. -/
def demoVals : String → FormValue :=
  fun k =>
    if k = "f-name" then .str ""
    else if k = "f-date" then .date 0
    else if k = "f-sig" then .str "signed"
    else .absent

/-- C6: the synthesized validation contract — a required text field accepts
only a non-empty string, a required date field requires a present date
value, a required checkbox only `true`, a required signature only a
non-empty payload; optional fields accept the absent value (and the empty
string for the string-backed types); the defaults are "" / current date /
false / ""; submission is blocked exactly while some field fails, failures
are keyed per field, and the scenario [text Name required, date required,
signature required] submitted with only Name empty yields exactly one
failure, on the Name field. -/
theorem validation_contract :
    (∀ (f : SigningField) (v : FormValue), f.type = "text" →
      f.required = true →
      (schemaFailures (createFormSchema [f]) (fun _ => v) = [] ↔
        ∃ s, v = .str s ∧ s ≠ "")) ∧
    (∀ (f : SigningField) (v : FormValue), f.type = "date" →
      f.required = true →
      (schemaFailures (createFormSchema [f]) (fun _ => v) = [] ↔
        ∃ d, v = .date d)) ∧
    (∀ (f : SigningField) (v : FormValue), f.type = "checkbox" →
      f.required = true →
      (schemaFailures (createFormSchema [f]) (fun _ => v) = [] ↔
        v = .bool true)) ∧
    (∀ (f : SigningField) (v : FormValue), f.type = "signature" →
      f.required = true →
      (schemaFailures (createFormSchema [f]) (fun _ => v) = [] ↔
        ∃ s, v = .str s ∧ s ≠ "")) ∧
    (∀ f : SigningField, f.required = false →
      (f.type = "text" ∨ f.type = "date" ∨ f.type = "checkbox" ∨
        f.type = "signature") →
      schemaFailures (createFormSchema [f]) (fun _ => .absent) = []) ∧
    (∀ f : SigningField, f.required = false →
      (f.type = "text" ∨ f.type = "signature") →
      schemaFailures (createFormSchema [f]) (fun _ => .str "") = []) ∧
    (∀ (f : SigningField) (now : Int),
      (f.type = "checkbox" → defaultValueFor f now = .bool false) ∧
      (f.type = "date" → defaultValueFor f now = .date now) ∧
      (f.type = "text" ∨ f.type = "signature" →
        defaultValueFor f now = .str "")) ∧
    (∀ (entries : List (String × FieldSchema)) (vals : String → FormValue),
      submissionBlocked entries vals = false ↔
        ∀ e ∈ entries, FieldSchema.check e.2 (vals e.1) = none) ∧
    (∀ (entries : List (String × FieldSchema)) (vals : String → FormValue)
        (p : String × String), p ∈ schemaFailures entries vals →
      p.1 ∈ entries.map Prod.fst) ∧
    schemaFailures (createFormSchema demoSignFields) demoVals
      = [("f-name", "Name is required")] ∧
    submissionBlocked (createFormSchema demoSignFields) demoVals = true := by
  refine ⟨?_, ?_, ?_, ?_, ?_, ?_, ?_, ?_, ?_, ?_, ?_⟩
  · intro f v ht hr
    have hsch : createFormSchema [f]
        = [(f.id, FieldSchema.stringMin1 (f.label ++ " is required"))] := by
      simp [createFormSchema, schemaForField, ht, hr]
    rw [hsch, schemaFailures_singleton]
    exact stringMin1_check_eq_none _ _
  · intro f v ht hr
    have hsch : createFormSchema [f]
        = [(f.id, FieldSchema.dateReq (f.label ++ " is required"))] := by
      simp [createFormSchema, schemaForField, ht, hr]
    rw [hsch, schemaFailures_singleton]
    exact dateReq_check_eq_none _ _
  · intro f v ht hr
    have hsch : createFormSchema [f]
        = [(f.id, FieldSchema.boolTrue (f.label ++ " must be checked"))] := by
      simp [createFormSchema, schemaForField, ht, hr]
    rw [hsch, schemaFailures_singleton]
    exact boolTrue_check_eq_none _ _
  · intro f v ht hr
    have hsch : createFormSchema [f]
        = [(f.id, FieldSchema.stringMin1 "Signature is required")] := by
      simp [createFormSchema, schemaForField, ht, hr]
    rw [hsch, schemaFailures_singleton]
    exact stringMin1_check_eq_none _ _
  · intro f hr ht
    rcases ht with ht | ht | ht | ht <;>
      simp [createFormSchema, schemaForField, ht, hr, schemaFailures,
        FieldSchema.check]
  · intro f hr ht
    rcases ht with ht | ht <;>
      simp [createFormSchema, schemaForField, ht, hr, schemaFailures,
        FieldSchema.check]
  · intro f now
    refine ⟨?_, ?_, ?_⟩
    · intro h
      simp [defaultValueFor, h]
    · intro h
      simp [defaultValueFor, h]
    · intro h
      rcases h with h | h <;> simp [defaultValueFor, h]
  · exact submissionBlocked_false_iff
  · exact schemaFailures_keys
  · decide
  · decide

/-- A key appears in the synthesized schema exactly when some field carries
that id and its type matches one of the switch's cases. -/
lemma createFormSchema_keys (fields : List SigningField) (k : String) :
    k ∈ (createFormSchema fields).map Prod.fst ↔
      ∃ g ∈ fields, g.id = k ∧ (schemaForField g).isSome := by
  constructor
  · intro hk
    obtain ⟨p, hp, hpk⟩ := List.mem_map.mp hk
    obtain ⟨g, hg, hgp⟩ := List.mem_filterMap.mp hp
    obtain ⟨sch, hsch, hps⟩ := Option.map_eq_some'.mp hgp
    refine ⟨g, hg, ?_, by simp [hsch]⟩
    rw [← hpk, ← hps]
  · rintro ⟨g, hg, hid, hsome⟩
    obtain ⟨sch, hsch⟩ := Option.isSome_iff_exists.mp hsome
    apply List.mem_map.mpr
    refine ⟨(g.id, sch), ?_, hid⟩
    apply List.mem_filterMap.mpr
    exact ⟨g, hg, by rw [hsch]; rfl⟩

/-- C10: the form synthesizer's type dispatch is partial — an assigned field
whose type is outside {text, date, checkbox, signature} (with ids pairwise
distinct, as the data model requires) contributes no schema entry keyed by
its id, can never appear among the validation failures of any submission,
and renders no input control. -/
theorem unknownType_never_blocks
    (fields : List SigningField) (f : SigningField)
    (hf : f ∈ fields)
    (hnd : (fields.map SigningField.id).Nodup)
    (ht : f.type ∉ ["text", "date", "checkbox", "signature"]) :
    f.id ∉ (createFormSchema fields).map Prod.fst ∧
    (∀ (vals : String → FormValue) (m : String),
      (f.id, m) ∉ schemaFailures (createFormSchema fields) vals) ∧
    renderControl f.type = none ∧
    schemaForField f = none := by
  have ht4 : f.type ≠ "text" ∧ f.type ≠ "date" ∧ f.type ≠ "checkbox" ∧
      f.type ≠ "signature" := by
    simp only [List.mem_cons, List.not_mem_nil, or_false, not_or] at ht
    exact ht
  obtain ⟨h1, h2, h3, h4⟩ := ht4
  have hnone : schemaForField f = none := by
    simp [schemaForField, h1, h2, h3, h4]
  have hkey : f.id ∉ (createFormSchema fields).map Prod.fst := by
    intro hk
    obtain ⟨g, hg, hid, hsome⟩ := (createFormSchema_keys fields f.id).mp hk
    have hgf : g = f := List.inj_on_of_nodup_map hnd hg hf hid
    rw [hgf, hnone] at hsome
    simp at hsome
  refine ⟨hkey, ?_, ?_, hnone⟩
  · intro vals m hmem
    exact hkey (schemaFailures_keys _ vals (f.id, m) hmem)
  · simp [renderControl, h1, h2, h3, h4]

/-- A field carrying the editor-producible type "signblock", which the
signing-side union does not list. -/
def demoSignblockField : SigningField :=
  { id := "sb-1", type := "signblock", page := 1, posX := 0, posY := 0,
    sizeW := 200, sizeH := 120, label := "Signblock Field", required := true }

/-- A field list mixing the signblock field with an ordinary text field. -/
def demoMixedFields : List SigningField := [demoSignblockField, demoField1]

/-- Witness for C10: the signblock field renders no control and gets no
schema key. -/
theorem unknownType_never_blocks_witness :
    renderControl demoSignblockField.type = none ∧
    demoSignblockField.id ∉ (createFormSchema demoMixedFields).map
      Prod.fst := by
  have h := unknownType_never_blocks demoMixedFields demoSignblockField
    (List.mem_cons_self _ _) (by decide) (by decide)
  exact ⟨h.2.2.1, h.1⟩

/-! ## Signature capture widget (SignaturePad.tsx)

The canvas raster is modelled as the configured background fill, an
optional re-hydrated image, and a list of strokes; the browser's
`canvas.toDataURL("image/png")` (external to the repository) is modelled as
a deterministic self-describing data URI over that raster. -/

/-- One freehand stroke: the `beginPath`/`moveTo` start point and the
`lineTo` segments appended while drawing. -/
structure Stroke where
  startX : ℚ
  startY : ℚ
  segments : List (ℚ × ℚ)
deriving DecidableEq, Repr

/-- The canvas raster of SignaturePad.tsx: the background fill painted by
the init effect and by `clearSignature`, the image drawn when a prior
`value` is supplied, and the strokes drawn since. -/
structure Raster where
  background : String
  image : Option String
  strokes : List Stroke
deriving DecidableEq, Repr

/-- The widget state: `isDrawing` and `isEmpty` are the two `useState`
booleans of SignaturePad.tsx; `emitted` records the payloads passed to the
`onChange` callback, in order. -/
structure PadState where
  isDrawing : Bool
  isEmpty : Bool
  raster : Raster
  emitted : List String
deriving DecidableEq, Repr

/-- Modelled from the spec: the widget "exports the current raster content
as an opaque image payload (e.g. a self-describing data URI)" — the
browser's `canvas.toDataURL` is outside the repository, so its payload body
is modelled as a deterministic rendering of the raster. -/
def encodeRaster (r : Raster) : String :=
  r.background ++ "|" ++ r.image.getD "" ++ "|" ++
    toString r.strokes.length

/-- The PNG data URI `canvas.toDataURL("image/png")` returns for the
raster; always starts with the self-describing prefix. -/
def toDataURL (r : Raster) : String :=
  "data:image/png;base64," ++ encodeRaster r

/-- The init effect of SignaturePad.tsx: paint the background, and when a
prior `value` is supplied (truthy, i.e. non-empty) draw it onto the canvas
and mark the widget non-empty; drawing never starts here. -/
def initPad (backgroundColor : String) (value : String) : PadState :=
  { isDrawing := false
    isEmpty := value == ""
    raster :=
      { background := backgroundColor
        image := if value == "" then none else some value
        strokes := [] }
    emitted := [] }

/-- SignaturePad.tsx `startDrawing`: enter the Drawing state, mark
non-empty, and begin a new path at the pointer position. -/
def startDrawing (p : PadState) (x y : ℚ) : PadState :=
  { p with
      isDrawing := true
      isEmpty := false
      raster := { p.raster with
        strokes := p.raster.strokes ++ [⟨x, y, []⟩] } }

/-- Extending the most recently begun path with a `lineTo` segment. -/
def appendToLast : List Stroke → ℚ × ℚ → List Stroke
  | [], _ => []
  | [st], q => [{ st with segments := st.segments ++ [q] }]
  | st :: rest, q => st :: appendToLast rest q

/-- SignaturePad.tsx `draw`: a no-op unless Drawing; otherwise extends the
current stroke to the pointer position and paints it. -/
def draw (p : PadState) (x y : ℚ) : PadState :=
  if p.isDrawing = false then p
  else
    { p with raster := { p.raster with
        strokes := appendToLast p.raster.strokes (x, y) } }

/-- SignaturePad.tsx `endDrawing`: a no-op unless Drawing; otherwise closes
the path, leaves the Drawing state and exports the raster through
`onChange`. -/
def endDrawing (p : PadState) : PadState :=
  if p.isDrawing = false then p
  else
    { p with
        isDrawing := false
        emitted := p.emitted ++ [toDataURL p.raster] }

/-- SignaturePad.tsx `clearSignature`: repaint the whole canvas with the
configured background color, mark the widget empty and report the empty
payload. -/
def clearSignature (p : PadState) : PadState :=
  { p with
      raster :=
        { background := p.raster.background, image := none, strokes := [] }
      isEmpty := true
      emitted := p.emitted ++ [""] }

/-- The Clear button of SignaturePad.tsx carries `disabled={isEmpty}`: the
click reaches `clearSignature` only when the canvas is non-empty. -/
def clickClear (p : PadState) : PadState :=
  if p.isEmpty then p else clearSignature p

/-- The export is never the empty payload. -/
lemma toDataURL_ne_empty (r : Raster) : toDataURL r ≠ "" := by
  intro h
  have hl := congrArg String.length h
  rw [toDataURL, String.length_append] at hl
  have h22 : ("data:image/png;base64," : String).length = 22 := rfl
  have h0 : ("" : String).length = 0 := rfl
  rw [h22, h0] at hl
  omega

/-- C9: drawing a stroke and releasing the pointer exports exactly one
non-empty data-URI payload through `onChange`; `clearSignature` repaints
the configured background (dropping all content), marks the widget empty
and reports the empty payload; the Clear button is a no-op on an empty
canvas and idempotent; and constructing the widget with a prior non-empty
payload renders it onto the canvas and marks the state non-empty without
entering the Drawing state. -/
theorem signaturePad_contract :
    (∀ (p : PadState) (x y x2 y2 : ℚ),
      ∃ payload,
        (endDrawing (draw (startDrawing p x y) x2 y2)).emitted
          = p.emitted ++ [payload] ∧
        payload ≠ "" ∧
        ∃ rest, payload = "data:image/png;base64," ++ rest) ∧
    (∀ p : PadState,
      (clearSignature p).raster
          = { background := p.raster.background, image := none,
              strokes := [] } ∧
        (clearSignature p).isEmpty = true ∧
        (clearSignature p).emitted = p.emitted ++ [""]) ∧
    (∀ p : PadState, p.isEmpty = true → clickClear p = p) ∧
    (∀ p : PadState, clickClear (clickClear p) = clickClear p) ∧
    (∀ backgroundColor value : String, value ≠ "" →
      (initPad backgroundColor value).isEmpty = false ∧
      (initPad backgroundColor value).isDrawing = false ∧
      (initPad backgroundColor value).raster.image = some value) := by
  refine ⟨?_, ?_, ?_, ?_, ?_⟩
  · intro p x y x2 y2
    refine ⟨toDataURL (draw (startDrawing p x y) x2 y2).raster, ?_,
      toDataURL_ne_empty _, encodeRaster _, rfl⟩
    simp [startDrawing, draw, endDrawing]
  · intro p
    exact ⟨rfl, rfl, rfl⟩
  · intro p hp
    simp [clickClear, hp]
  · intro p
    by_cases hp : p.isEmpty
    · simp [clickClear, hp]
    · simp [clickClear, hp, clearSignature]
  · intro backgroundColor value hv
    have hb : (value == "") = false := by
      simp [hv]
    refine ⟨?_, rfl, ?_⟩
    · simp [initPad, hb]
    · simp [initPad, hb]

end SvsTemplate
